import Mathlib

/-!
Shallow embedding of the accelerated-idp-terraform custom-resource handlers:
  * src/lambda/update_configuration/index.py        (configuration merge handler)
  * terraform/lambda_src/configuration_copy_function/index.py  (bulk copy handler)
  * terraform/testing/json_to_dynamodb.py           (converter tool)
  * terraform/testing/load_config.py                (converter tool)

Python values are modelled by `PyVal`; dicts are ordered association lists with
unique keys and Python's later-assignment-wins update semantics.  Machine floats
are modelled symbolically by their `str()` representation plus tags for the
non-finite values, which is exactly the information the adapters consume
(`Decimal(str(x))` and the `math.isnan`/`math.isinf` checks).  External calls
(S3 get/copy, DynamoDB writes, CloudFormation callbacks) are modelled as an
oracle environment `Env` plus an explicit effect trace.
-/

/-- `str()` view of a Python float: either a finite value carried by its decimal
string representation, or one of the non-finite values. -/
inductive FloatKind where
  | finite (repr : String)
  | nan
  | inf
  | negInf
deriving DecidableEq, Repr

/-- Python values as they occur in the handlers' events and records. -/
inductive PyVal where
  | none
  | bool (b : Bool)
  | int (n : Int)
  | float (k : FloatKind)
  | decimal (k : FloatKind)
  | str (s : String)
  | list (xs : List PyVal)
  | dict (entries : List (String × PyVal))
deriving Repr

/-- A Python dict: ordered key/value pairs (keys unique in all source inputs). -/
abbrev Dict := List (String × PyVal)

/-- `d.get(k)` without a default: `some v` when the key is present (first
match; keys are unique in every source input). -/
def pyGet (d : Dict) (k : String) : Option PyVal :=
  match d with
  | [] => Option.none
  | p :: t => if p.1 == k then some p.2 else pyGet t k

/-- `k in d` membership test on a dict. -/
def containsKey (d : Dict) (k : String) : Bool :=
  match d with
  | [] => false
  | p :: t => p.1 == k || containsKey t k

/-- `d[k] = v`: Python in-place assignment — replaces the value at an existing
key (keeping its position) or appends a new key at the end. -/
def dictSet (d : Dict) (k : String) (v : PyVal) : Dict :=
  if containsKey d k then d.map (fun p => if p.1 == k then (k, v) else p)
  else d ++ [(k, v)]

/-- `d.pop(k, None)`'s effect on the dict: remove the key if present. -/
def dictPop (d : Dict) (k : String) : Dict :=
  d.filter (fun p => !(p.1 == k))

/-- Python truthiness for the values that can appear in events.  (For floats the
`str()` representation stands in for the numeric value; no claim exercises
float truthiness.) -/
def truthy : PyVal → Bool
  | .none => false
  | .bool b => b
  | .int n => !(n == 0)
  | .float k => match k with
    | .finite r => !(r == "0.0" || r == "-0.0" || r == "0")
    | _ => true
  | .decimal k => match k with
    | .finite r => !(r == "0.0" || r == "-0.0" || r == "0")
    | _ => true
  | .str s => !(s == "")
  | .list xs => !xs.isEmpty
  | .dict d => !d.isEmpty

/-- Python `v == "lit"` for a string literal: only equal strings compare equal. -/
def pyEqStr (v : PyVal) (lit : String) : Bool :=
  match v with
  | .str s => s == lit
  | _ => false

/-- `type(v).__name__`. -/
def pyTypeName : PyVal → String
  | .none => "NoneType"
  | .bool _ => "bool"
  | .int _ => "int"
  | .float _ => "float"
  | .decimal _ => "Decimal"
  | .str _ => "str"
  | .list _ => "list"
  | .dict _ => "dict"

/-- `str()` of a float. -/
def floatStr : FloatKind → String
  | .finite r => r
  | .nan => "nan"
  | .inf => "inf"
  | .negInf => "-inf"

/-- `str()` of a Decimal. -/
def decimalStr : FloatKind → String
  | .finite r => r
  | .nan => "NaN"
  | .inf => "Infinity"
  | .negInf => "-Infinity"

/-- f-string rendering of a value.  Containers are abbreviated: no claim
inspects the repr of a composite value. -/
def pyStrOf : PyVal → String
  | .none => "None"
  | .bool true => "True"
  | .bool false => "False"
  | .int n => toString n
  | .float k => floatStr k
  | .decimal k => decimalStr k
  | .str s => s
  | .list _ => "[...]"
  | .dict _ => "{...}"

/-- Characters stripped by Python's no-argument `str.strip()` (the ASCII
whitespace set; the exotic Unicode spaces never occur in these inputs). -/
def pyIsSpace (c : Char) : Bool :=
  c == ' ' || c == '\t' || c == '\n' || c == '\r' || c == '\x0b' || c == '\x0c'

/-- `s.strip()`. -/
def pyStrip (s : String) : String :=
  ⟨((s.data.dropWhile pyIsSpace).reverse.dropWhile pyIsSpace).reverse⟩

/-- `s.lstrip('/')`. -/
def lstripSlashes (s : String) : String :=
  ⟨s.data.dropWhile (fun c => c == '/')⟩

/-- `s.rstrip('/')`. -/
def rstripSlashes (s : String) : String :=
  ⟨(s.data.reverse.dropWhile (fun c => c == '/')).reverse⟩

/-- `s[:n]` Python slice (by code points, as Python slices by characters). -/
def pySlice (s : String) (n : Nat) : String :=
  ⟨s.data.take n⟩

/-- `s[n:]` Python slice. -/
def pyDrop (s : String) (n : Nat) : String :=
  ⟨s.data.drop n⟩

/-- `s.lower()`. -/
def pyLower (s : String) : String :=
  ⟨s.data.map Char.toLower⟩

/-- `s.startswith(pre)`. -/
def pyStartsWith (s pre : String) : Bool :=
  pre.data.isPrefixOf s.data

mutual

/-- Recursively convert float values to Decimal for DynamoDB compatibility
(`convert_floats_to_decimal`, update_configuration/index.py lines 58-68).
`Decimal(str(obj))` keeps the string form — including for `nan`/`inf`, which
Python's `Decimal` accepts as decimal NaN/Infinity without error. -/
def convert_floats_to_decimal : PyVal → PyVal
  | .float k => .decimal k
  | .dict d => .dict (cfdEntries d)
  | .list xs => .list (cfdList xs)
  | .none => .none
  | .bool b => .bool b
  | .int n => .int n
  | .str s => .str s
  | .decimal k => .decimal k

/-- The dict comprehension inside `convert_floats_to_decimal`. -/
def cfdEntries : List (String × PyVal) → List (String × PyVal)
  | [] => []
  | (k, v) :: rest => (k, convert_floats_to_decimal v) :: cfdEntries rest

/-- The list comprehension inside `convert_floats_to_decimal`. -/
def cfdList : List PyVal → List PyVal
  | [] => []
  | v :: rest => convert_floats_to_decimal v :: cfdList rest

end

example : convert_floats_to_decimal (.dict [("a", .float .nan)])
    = .dict [("a", .decimal .nan)] := rfl

/-- Parameters of an `s3_client.copy_object(**copy_params)` call; the three
encryption fields are present only when the corresponding property was truthy
(copy handler lines 180-193). -/
structure CopyParams where
  sourceBucket : PyVal
  sourceKey : String
  bucket : PyVal
  key : String
  sseCustomerKey : Option PyVal
  serverSideEncryption : Option PyVal
  sseKMSKeyId : Option PyVal
deriving Repr

/-- One entry of `failed_copies` (copy handler lines 200-205).  The Python dict
also records a `traceback` string, which no response field ever reads; it is
not modelled. -/
structure FailedCopy where
  key : String
  error : String
deriving Repr

/-- Externally visible side effects of a handler invocation, in order. -/
inductive Effect where
  | putItem (item : Dict)
  | deleteItem (keyVal : String)
  | s3CopyObject (p : CopyParams)
  | cfnSend (status : String) (data : PyVal) (physicalId : Option String) (reason : Option String)
  | cfnPut (url : String) (body : PyVal)
deriving Repr

/-- CloudFormation-callback effects (reporting, not data mutation). -/
def isCfnEffect : Effect → Bool
  | .cfnSend _ _ _ _ => true
  | .cfnPut _ _ => true
  | _ => false

/-- Oracle environment: the external world the handlers call into.
`s3fetch bucket key` models `s3_client.get_object(...)['Body'].read().decode()`
(errors model `ClientError`s); `jsonParse`/`yamlParse` model `json.loads` /
`yaml.safe_load` (`Option.none` = the parser raised); `copyObject` models
`s3_client.copy_object`; `cfnAvailable` models whether `import cfnresponse`
succeeds. -/
structure Env where
  s3fetch : String → String → Except String String
  jsonParse : String → Option PyVal
  yamlParse : String → Option PyVal
  copyObject : CopyParams → Except String Unit
  cfnAvailable : Bool

/-- Lambda execution context (only the log stream name is ever read). -/
structure Ctx where
  logStreamName : String

/-- What an invocation yields to its caller: a returned value, Python `None`
(implicitly returned), or an exception escaping the handler. -/
inductive Outcome where
  | returned (v : PyVal)
  | returnedNone
  | raised (e : String)
deriving Repr

/-! ## update_configuration/index.py -/

/-- `'s3://bucket/key'[5:].split('/', 1)`: split at the first slash; `none`
models the `ValueError` when no slash is present. -/
def splitBucketKey (s : String) : Option (String × String) :=
  match s.data.findIdx? (fun c => c == '/') with
  | Option.none => Option.none
  | some i => some (⟨s.data.take i⟩, ⟨s.data.drop (i + 1)⟩)

/-- `fetch_content_from_s3` (lines 22-56): validate and split the URI, fetch
the object, then try JSON, then YAML, then fall back to the raw text. -/
def fetch_content_from_s3 (env : Env) (s3_uri : String) : Except String PyVal :=
  if !pyStartsWith s3_uri "s3://" then .error ("Invalid S3 URI: " ++ s3_uri)
  else
    match splitBucketKey (pyDrop s3_uri 5) with
    | Option.none => .error "ValueError: not enough values to unpack"
    | some (bucket, key) =>
      match env.s3fetch bucket key with
      | .error e => .error e
      | .ok content =>
        match env.jsonParse content with
        | some v => .ok v
        | Option.none =>
          match env.yamlParse content with
          | some v => .ok v
          | Option.none => .ok (.str content)

/-- `resolve_content` (lines 70-77): dereference only strings that begin with
the object-storage scheme; everything else is returned unchanged. -/
def resolve_content (env : Env) (content : PyVal) : Except String PyVal :=
  match content with
  | .str s => if pyStartsWith s "s3://" then fetch_content_from_s3 env s else .ok (.str s)
  | v => .ok v

/-- The item built by `table.put_item(Item={'Configuration': ct, **converted})`
(lines 87-92).  Python dict-display semantics: the literal key is written
first, then the unpacked entries are assigned one by one — a `Configuration`
key inside the data therefore overwrites the literal one. -/
def mkItem (configuration_type : String) (converted : Dict) : Dict :=
  converted.foldl (fun item p => dictSet item p.1 p.2)
    [("Configuration", PyVal.str configuration_type)]

/-- `update_configuration` (lines 79-95): convert floats, then put the item.
The `**` unpack raises `TypeError` when the data is not a mapping. -/
def update_configuration (configuration_type : String) (data : PyVal) :
    Except String Effect :=
  match convert_floats_to_decimal data with
  | .dict d => .ok (.putItem (mkItem configuration_type d))
  | v => .error ("TypeError: argument of type '" ++ pyTypeName v ++ "' is not a mapping")

/-- `delete_configuration` (lines 97-109) — defined but never called by the
handler. -/
def delete_configuration (configuration_type : String) : Effect :=
  .deleteItem configuration_type

/-- `generate_physical_id` (lines 111-115). -/
def generate_physical_id (stack_id : String) (logical_id : String) : String :=
  stack_id ++ "/" ++ logical_id ++ "/configuration"

/-- One model-ARN override on the resolved `Default` content (handler lines
152-157 for classification, 159-164 for extraction).  Applied only when the
property is a non-empty string whose `strip()` is non-empty AND the section key
is already present; `resolved['section']['model'] = arn` raises `TypeError`
when the existing section is not a dict. -/
def applyOverride (props : Dict) (arnKey : String) (sectionKey : String) (d : Dict) :
    Except String Dict :=
  match (pyGet props arnKey).getD .none with
  | .str s =>
    if !(s == "") && !(pyStrip s == "") then
      match pyGet d sectionKey with
      | some (.dict sec) =>
        .ok (dictSet d sectionKey (.dict (dictSet sec "model" (.str s))))
      | some _ => .error "TypeError: object does not support item assignment"
      | Option.none => .ok d
    else .ok d
  | _ => .ok d

/-- The whole override block (handler lines 150-164): overrides are applied,
in place, only when the resolved `Default` content is a dict. -/
def applyModelOverrides (props : Dict) (resolved : PyVal) : Except String PyVal :=
  match resolved with
  | .dict d =>
    match applyOverride props "CustomClassificationModelARN" "classification" d with
    | .error e => .error e
    | .ok d1 =>
      match applyOverride props "CustomExtractionModelARN" "extraction" d1 with
      | .error e => .error e
      | .ok d2 => .ok (.dict d2)
  | v => .ok v

/-- The `'Schema' in properties` block (handler lines 141-144). -/
def uc_schema_step (env : Env) (props : Dict) : Except String (List Effect) :=
  if containsKey props "Schema" then
    match resolve_content env ((pyGet props "Schema").getD .none) with
    | .error e => .error e
    | .ok resolved =>
      match update_configuration "Schema" (.dict [("Schema", resolved)]) with
      | .error e => .error e
      | .ok eff => .ok [eff]
  else .ok []

/-- The `'Default' in properties` block (handler lines 146-167). -/
def uc_default_step (env : Env) (props : Dict) : Except String (List Effect) :=
  if containsKey props "Default" then
    match resolve_content env ((pyGet props "Default").getD .none) with
    | .error e => .error e
    | .ok resolved =>
      match applyModelOverrides props resolved with
      | .error e => .error e
      | .ok withOverrides =>
        match update_configuration "Default" withOverrides with
        | .error e => .error e
        | .ok eff => .ok [eff]
  else .ok []

/-- The `'Custom' in properties` block (handler lines 169-177): written only
when the value is a dict whose `Info` field differs from the placeholder
sentinel; a non-dict value is logged and skipped. -/
def uc_custom_step (env : Env) (props : Dict) : Except String (List Effect) :=
  if containsKey props "Custom" then
    match (pyGet props "Custom").getD .none with
    | .dict d =>
      if (match pyGet d "Info" with
          | some (.str s) => s == "Custom inference settings"
          | _ => false) then .ok []
      else
        match resolve_content env (.dict d) with
        | .error e => .error e
        | .ok resolved =>
          match update_configuration "Custom" resolved with
          | .error e => .error e
          | .ok eff => .ok [eff]
    | _ => .ok []
  else .ok []

/-- The CloudFormation-compatibility block (handler lines 184-192 and 204-211):
inside `if 'StackId' in event`, only `ImportError` is caught — a `KeyError`
from `event['LogicalResourceId']` escapes to the outer handler. -/
def uc_cfn_block (env : Env) (event : Dict) (status : String) (response_data : PyVal)
    (reason : Option String) : Except String (List Effect) :=
  if containsKey event "StackId" then
    if env.cfnAvailable then
      match pyGet event "StackId", pyGet event "LogicalResourceId" with
      | some sid, some lid =>
        .ok [.cfnSend status response_data
              (some (generate_physical_id (pyStrOf sid) (pyStrOf lid))) reason]
      | _, _ => .error "KeyError: 'LogicalResourceId'"
    else .ok []
  else .ok []

/-- The `Create`/`Update` branch (handler lines 139-193). -/
def uc_create_update (env : Env) (event : Dict) (request_type : PyVal) (props : Dict) :
    Except String (Option PyVal) × List Effect :=
  match uc_schema_step env props with
  | .error e => (.error e, [])
  | .ok effs1 =>
    match uc_default_step env props with
    | .error e => (.error e, effs1)
    | .ok effs2 =>
      match uc_custom_step env props with
      | .error e => (.error e, effs1 ++ effs2)
      | .ok effs3 =>
        let response_data : PyVal := .dict
          [("Message", .str ("Successfully " ++ pyLower (pyStrOf request_type) ++ "d configurations")),
           ("Status", .str "SUCCESS")]
        match uc_cfn_block env event "SUCCESS" response_data Option.none with
        | .error e => (.error e, effs1 ++ effs2 ++ effs3)
        | .ok cfnEffs => (.ok (some response_data), effs1 ++ effs2 ++ effs3 ++ cfnEffs)

/-- The `Delete` branch's `response_data` (handler lines 199-202). -/
def uc_delete_response : PyVal :=
  .dict [("Message", .str "Success (delete = no-op)"), ("Status", .str "SUCCESS")]

/-- The `Delete` branch (handler lines 195-213): no store operation at all. -/
def uc_delete (env : Env) (event : Dict) : Except String (Option PyVal) × List Effect :=
  match uc_cfn_block env event "SUCCESS" uc_delete_response Option.none with
  | .error e => (.error e, [])
  | .ok cfnEffs => (.ok (some uc_delete_response), cfnEffs)

/-- Handler lines 128-134: `event.get('ResourceProperties')`, treating `None`
or absence as an empty dict and copying a mapping; `dict(...)` raises on any
other type. -/
def uc_props (event : Dict) : Except String Dict :=
  match (pyGet event "ResourceProperties").getD .none with
  | .none => .ok []
  | .dict d => .ok d
  | v => .error ("TypeError: '" ++ pyTypeName v ++ "' object is not iterable")

/-- The body of the `try:` block of `handler` (lines 124-213).  An unrecognized
`RequestType` falls off the end of the `if`/`elif` chain and returns `None`. -/
def uc_body (env : Env) (event : Dict) : Except String (Option PyVal) × List Effect :=
  let request_type := (pyGet event "RequestType").getD (.str "Create")
  match uc_props event with
  | .error e => (.error e, [])
  | .ok props0 =>
    let props := dictPop props0 "ServiceToken"
    if pyEqStr request_type "Create" || pyEqStr request_type "Update" then
      uc_create_update env event request_type props
    else if pyEqStr request_type "Delete" then
      uc_delete env event
    else (.ok Option.none, [])

/-- `handler` (lines 117-233).  The outer `except` (lines 215-233) converts the
exception into an error payload; in CloudFormation mode it is sent through the
callback (if importable), while in direct mode the exception is re-raised. -/
def uc_handler (env : Env) (event : Dict) (_ctx : Ctx) : Outcome × List Effect :=
  match uc_body env event with
  | (.ok (some r), effs) => (.returned r, effs)
  | (.ok Option.none, effs) => (.returnedNone, effs)
  | (.error e, effs) =>
    let error_response : PyVal := .dict [("Error", .str e), ("Status", .str "FAILED")]
    if containsKey event "StackId" then
      if env.cfnAvailable then
        match pyGet event "StackId", pyGet event "LogicalResourceId" with
        | some sid, some lid =>
          (.returned error_response,
           effs ++ [.cfnSend "FAILED" error_response
                     (some (generate_physical_id (pyStrOf sid) (pyStrOf lid))) (some e)])
        | _, _ => (.raised "KeyError: 'LogicalResourceId'", effs)
      else (.returned error_response, effs)
    else (.raised e, effs)

/-- Heap of Python dict objects, for the aliasing-sensitive fragment. -/
def Heap := Nat → Option Dict

/-- Handler lines 128-137 with Python reference semantics made explicit:
`properties = dict(resource_properties)` allocates a fresh dict object at
address `fresh` holding a shallow copy of the entries, and
`properties.pop('ServiceToken', None)` then mutates only that fresh object.
`rpAddr` is the address of the caller's `event['ResourceProperties']`
(`Option.none` models an absent key / `None`). -/
def extract_properties (heap : Heap) (rpAddr : Option Nat) (fresh : Nat) : Heap :=
  let copied : Dict :=
    match rpAddr with
    | Option.none => []
    | some a => (heap a).getD []
  let properties := dictPop copied "ServiceToken"
  fun n => if n = fresh then some properties else heap n

/-! ## configuration_copy_function/index.py -/

/-- The JSON body assembled by `send_cfn_response` (lines 32-40). -/
def cfnBody (event : Dict) (ctx : Ctx) (response_status : String) (response_data : PyVal)
    (physical_resource_id : Option String) (reason : Option String) : PyVal :=
  .dict
    [("Status", .str response_status),
     ("Reason", .str (reason.getD ("See CloudWatch Log Stream: " ++ ctx.logStreamName))),
     ("PhysicalResourceId", .str (physical_resource_id.getD ctx.logStreamName)),
     ("StackId", (pyGet event "StackId").getD (.str "")),
     ("RequestId", (pyGet event "RequestId").getD (.str "")),
     ("LogicalResourceId", (pyGet event "LogicalResourceId").getD (.str "")),
     ("Data", response_data)]

/-- `send_cfn_response` (lines 14-56): skip silently when `ResponseURL` is
falsy, otherwise `PUT` the JSON body to it.  (A truthy non-string URL would
fail inside `urlopen`; no claim involves one, and it is modelled as a `PUT` to
its rendering.) -/
def send_cfn_response (event : Dict) (ctx : Ctx) (response_status : String)
    (response_data : PyVal) (physical_resource_id : Option String)
    (reason : Option String) : List Effect :=
  let response_url := (pyGet event "ResponseURL").getD .none
  if !truthy response_url then []
  else [.cfnPut (pyStrOf response_url)
         (cfnBody event ctx response_status response_data physical_resource_id reason)]

/-- Normalization of one file-list entry after the emptiness check (copy
handler line 162): strip the leading slashes. -/
def entryNorm (stripped : String) : String :=
  lstripSlashes stripped

/-- Prefix normalization (lines 139 and 141): `strip()` then `rstrip('/')`. -/
def pfxNorm (s : String) : String :=
  rstripSlashes (pyStrip s)

/-- `.strip().rstrip('/')` on a property value: raises `AttributeError` on a
non-string. -/
def extractPfx (v : PyVal) : Except String String :=
  match v with
  | .str s => .ok (pfxNorm s)
  | v => .error ("AttributeError: '" ++ pyTypeName v ++ "' object has no attribute 'strip'")

/-- Key joining (lines 164-173): single-slash join, prefix omitted when empty. -/
def buildKey (pfx : String) (rel : String) : String :=
  if pfx ≠ "" then pfx ++ "/" ++ rel else rel

/-- `if value:` retention of an optional encryption parameter (lines 188-193). -/
def keepIfTruthy (v : Option PyVal) : Option PyVal :=
  match v with
  | some x => if truthy x then some x else Option.none
  | Option.none => Option.none

/-- The copy loop (lines 155-207): skip entries that are empty after
`strip()`; attempt every remaining entry, recording failures and continuing; a
non-string entry raises `AttributeError` out of the loop (effects before the
raise are kept).  Returns the attempted-copy effects and, on normal
completion, `(copied_count, failed_copies)` in order. -/
def copyLoop (env : Env) (source_bucket : PyVal) (spfx : String) (target_bucket : PyVal)
    (tpfx : String) (sseCK sseSSE sseKMS : Option PyVal) :
    List PyVal → List Effect × Except String (Nat × List FailedCopy)
  | [] => ([], .ok (0, []))
  | e :: rest =>
    match e with
    | .str s =>
      if pyStrip s == "" then
        copyLoop env source_bucket spfx target_bucket tpfx sseCK sseSSE sseKMS rest
      else
        let rel := entryNorm (pyStrip s)
        let source_key := buildKey spfx rel
        let target_key := buildKey tpfx rel
        let params : CopyParams :=
          ⟨source_bucket, source_key, target_bucket, target_key,
           keepIfTruthy sseCK, keepIfTruthy sseSSE, keepIfTruthy sseKMS⟩
        let (effs, res) :=
          copyLoop env source_bucket spfx target_bucket tpfx sseCK sseSSE sseKMS rest
        match env.copyObject params with
        | .ok _ =>
          (.s3CopyObject params :: effs,
           res.map (fun p => (p.1 + 1, p.2)))
        | .error err =>
          (.s3CopyObject params :: effs,
           res.map (fun p => (p.1, ⟨source_key, err⟩ :: p.2)))
    | v => ([], .error ("AttributeError: '" ++ pyTypeName v ++ "' object has no attribute 'strip'"))

/-- `len([f for f in file_list if f.strip()])` (line 213).  Non-string entries
are counted as truthy for totality; they are unreachable here because the loop
would already have raised. -/
def totalFiles (file_list : List PyVal) : Nat :=
  file_list.countP (fun v =>
    match v with
    | .str s => !(pyStrip s == "")
    | _ => true)

/-- The aggregated complete-failure message (lines 218-228): first 3 error
details with an `... and N more errors` suffix, first 5 failing keys with an
`...` suffix. -/
def copyErrorMsg (failed_copies : List FailedCopy) : String :=
  let failed_keys := failed_copies.map (fun f => f.key)
  let error_summary :=
    String.intercalate "; " ((failed_copies.take 3).map (fun f => f.key ++ ": " ++ f.error))
  let error_summary :=
    if failed_copies.length > 3 then
      error_summary ++ " ... and " ++ toString (failed_copies.length - 3) ++ " more errors"
    else error_summary
  "Failed to copy any configuration files. Failed keys: " ++
    String.intercalate ", " (failed_keys.take 5) ++
    (if failed_keys.length > 5 then "..." else "") ++
    ". Errors: " ++ error_summary

/-- Response construction after the copy loop (lines 209-258). -/
def buildCopyResponse (event : Dict) (ctx : Ctx) (is_cfn : Bool) (copied_count : Nat)
    (failed_copies : List FailedCopy) (file_list : List PyVal) : Outcome × List Effect :=
  let response_data : Dict :=
    [("CopiedFiles", .int copied_count), ("FailedFiles", .int failed_copies.length),
     ("TotalFiles", .int (totalFiles file_list))]
  if copied_count = 0 ∧ file_list.length > 0 then
    let error_msg := copyErrorMsg failed_copies
    if is_cfn then
      (.returnedNone,
       send_cfn_response event ctx "FAILED" (.dict response_data) Option.none
         (some (pySlice error_msg 1024)))
    else
      (.returned (.dict
        [("statusCode", .int 500),
         ("body", .dict (("error", PyVal.str (pySlice error_msg 512)) :: response_data))]), [])
  else
    let success_msg := "Successfully copied " ++ toString copied_count ++ "/" ++
      toString (totalFiles file_list) ++ " configuration files"
    let rd :=
      if !failed_copies.isEmpty then
        response_data ++
          [("warning", PyVal.str (toString failed_copies.length ++ " files failed to copy"))]
      else response_data
    let rd := rd ++ [("message", PyVal.str success_msg)]
    if is_cfn then
      (.returnedNone, send_cfn_response event ctx "SUCCESS" (.dict rd) Option.none Option.none)
    else
      (.returned (.dict [("statusCode", .int 200), ("body", .dict rd)]), [])

/-- An input-validation failure (lines 89-135, 275-287): CFN callback or a
direct `{'statusCode': 400, 'body': {'error': msg}}`. -/
def copy_fail400 (event : Dict) (ctx : Ctx) (is_cfn : Bool) (msg : String) :
    Outcome × List Effect :=
  if is_cfn then
    (.returnedNone, send_cfn_response event ctx "FAILED" (.dict []) Option.none (some msg))
  else
    (.returned (.dict [("statusCode", .int 400), ("body", .dict [("error", .str msg)])]), [])

/-- The traceback text attached to a caught exception; abstracted by the
exception message (no claim inspects it). -/
def tracebackOf (e : String) : String := e

/-- The outer `except Exception` (lines 289-304), keeping the effects already
performed. -/
def copy_except (event : Dict) (ctx : Ctx) (is_cfn : Bool) (e : String)
    (effs : List Effect) : Outcome × List Effect :=
  let error_msg := "Error copying configuration files: " ++ e
  if is_cfn then
    (.returnedNone,
     effs ++ send_cfn_response event ctx "FAILED" (.dict []) Option.none
       (some (pySlice error_msg 1000)))
  else
    (.returned (.dict
      [("statusCode", .int 500),
       ("body", .dict [("error", .str error_msg),
                       ("details", .str (pySlice (tracebackOf e) 512))])]), effs)

/-- Required `ResourceProperties` keys (line 106). -/
def requiredKeys : List String := ["SourceBucket", "SourcePrefix", "TargetBucket", "FileList"]

/-- `handler` of the copy function (lines 58-304). -/
def copy_handler (env : Env) (event : Dict) (ctx : Ctx) : Outcome × List Effect :=
  let is_cfn := containsKey event "ResponseURL"
  let request_type := (pyGet event "RequestType").getD .none
  if !truthy request_type then
    copy_fail400 event ctx is_cfn
      "Missing required field 'RequestType' in event. Must be 'Create', 'Update', or 'Delete'."
  else
    match (pyGet event "ResourceProperties").getD (.dict []) with
    | .dict props =>
      let missing_keys := requiredKeys.filter (fun k => !containsKey props k)
      if !missing_keys.isEmpty then
        copy_fail400 event ctx is_cfn
          ("Missing required ResourceProperties: " ++ String.intercalate ", " missing_keys)
      else
        match (pyGet props "FileList").getD (.list []) with
        | .list file_list =>
          match extractPfx ((pyGet props "SourcePrefix").getD .none),
                extractPfx ((pyGet props "TargetPrefix").getD (.str "")) with
          | .ok spfx, .ok tpfx =>
            let source_bucket := (pyGet props "SourceBucket").getD .none
            let target_bucket := (pyGet props "TargetBucket").getD .none
            if pyEqStr request_type "Create" || pyEqStr request_type "Update" then
              let (effsL, res) :=
                copyLoop env source_bucket spfx target_bucket tpfx
                  (pyGet props "SSECustomerKey") (pyGet props "ServerSideEncryption")
                  (pyGet props "SSEKMSKeyId") file_list
              match res with
              | .ok (copied_count, failed_copies) =>
                let (out, effs2) :=
                  buildCopyResponse event ctx is_cfn copied_count failed_copies file_list
                (out, effsL ++ effs2)
              | .error e => copy_except event ctx is_cfn e effsL
            else if pyEqStr request_type "Delete" then
              let response_data : PyVal :=
                .dict [("message", .str "Delete completed - configuration files retained")]
              if is_cfn then
                (.returnedNone,
                 send_cfn_response event ctx "SUCCESS" response_data Option.none Option.none)
              else
                (.returned (.dict [("statusCode", .int 200), ("body", response_data)]), [])
            else
              copy_fail400 event ctx is_cfn
                ("Unknown RequestType '" ++ pyStrOf request_type ++
                 "'. Must be 'Create', 'Update', or 'Delete'.")
          | .error e, _ => copy_except event ctx is_cfn e []
          | _, .error e => copy_except event ctx is_cfn e []
        | v =>
          copy_fail400 event ctx is_cfn ("FileList must be a list, got " ++ pyTypeName v)
    | v =>
      copy_except event ctx is_cfn
        ("TypeError: argument of type '" ++ pyTypeName v ++ "' is not iterable") []

/-! ## terraform/testing/json_to_dynamodb.py and load_config.py -/

mutual

/-- `to_dynamodb_format` (json_to_dynamodb.py lines 11-26): wire-format
conversion with no non-finite check. -/
def to_dynamodb_format : PyVal → PyVal
  | .none => .dict [("NULL", .bool true)]
  | .bool b => .dict [("BOOL", .bool b)]
  | .str s => .dict [("S", .str s)]
  | .int n => .dict [("N", .str (toString n))]
  | .float k => .dict [("N", .str (floatStr k))]
  | .decimal k => .dict [("N", .str (decimalStr k))]
  | .list xs => .dict [("L", .list (tdfList xs))]
  | .dict d => .dict [("M", .dict (tdfEntries d))]

/-- List comprehension inside `to_dynamodb_format`. -/
def tdfList : List PyVal → List PyVal
  | [] => []
  | v :: rest => to_dynamodb_format v :: tdfList rest

/-- Dict comprehension inside `to_dynamodb_format`. -/
def tdfEntries : List (String × PyVal) → List (String × PyVal)
  | [] => []
  | (k, v) :: rest => (k, to_dynamodb_format v) :: tdfEntries rest

end

/-- The item built by `main` of json_to_dynamodb.py (lines 48-56): the
partition key is reserved — a `Configuration` key inside the data is skipped. -/
def jtd_build_item (config_id : String) (data : Dict) : Dict :=
  data.foldl
    (fun item p =>
      if p.1 == "Configuration" then item
      else dictSet item p.1 (to_dynamodb_format p.2))
    [("Configuration", PyVal.dict [("S", PyVal.str config_id)])]

mutual

/-- `convert_to_dynamodb_format` (load_config.py lines 15-36): like
`to_dynamodb_format` but non-finite floats raise `ValueError`, and numbers go
through `str(Decimal(str(obj)))`. -/
def convert_to_dynamodb_format : PyVal → Except String PyVal
  | .none => .ok (.dict [("NULL", .bool true)])
  | .bool b => .ok (.dict [("BOOL", .bool b)])
  | .str s => .ok (.dict [("S", .str s)])
  | .int n => .ok (.dict [("N", .str (toString n))])
  | .float k =>
    match k with
    | .finite r => .ok (.dict [("N", .str r)])
    | _ => .error "ValueError: NaN/Infinity are not supported for DynamoDB Number attributes"
  | .decimal k => .ok (.dict [("N", .str (decimalStr k))])
  | .list xs =>
    match ctdfList xs with
    | .error e => .error e
    | .ok ys => .ok (.dict [("L", .list ys)])
  | .dict d =>
    match ctdfEntries d with
    | .error e => .error e
    | .ok es => .ok (.dict [("M", .dict es)])

/-- List comprehension inside `convert_to_dynamodb_format`. -/
def ctdfList : List PyVal → Except String (List PyVal)
  | [] => .ok []
  | v :: rest =>
    match convert_to_dynamodb_format v with
    | .error e => .error e
    | .ok w =>
      match ctdfList rest with
      | .error e => .error e
      | .ok ws => .ok (w :: ws)

/-- Dict comprehension inside `convert_to_dynamodb_format`. -/
def ctdfEntries : List (String × PyVal) → Except String (List (String × PyVal))
  | [] => .ok []
  | (k, v) :: rest =>
    match convert_to_dynamodb_format v with
    | .error e => .error e
    | .ok w =>
      match ctdfEntries rest with
      | .error e => .error e
      | .ok ws => .ok ((k, w) :: ws)

end

/-! ## Auxiliary predicates and concrete fixtures used by the statements -/

/-- String discriminator (`isinstance(v, str)`). -/
def PyVal.isStr : PyVal → Bool
  | .str _ => true
  | _ => false

/-- Whether a character list contains two consecutive slashes. -/
def listHasDS : List Char → Bool
  | [] => false
  | [_] => false
  | a :: b :: rest => (a == '/' && b == '/') || listHasDS (b :: rest)

/-- Whether a string contains a doubled slash `//`. -/
def hasDoubleSlash (s : String) : Bool :=
  listHasDS s.data

/-- First character is a slash. -/
def headIsSlash : List Char → Bool
  | [] => false
  | c :: _ => c == '/'

/-- Last character is a slash. -/
def lastIsSlash : List Char → Bool
  | [] => false
  | [c] => c == '/'
  | _ :: c :: rest => lastIsSlash (c :: rest)

/-- `event.get('ResourceProperties')` is well formed for the configuration
handler: absent, `None`, or a mapping (anything else makes `dict(...)` raise). -/
def rpWellFormed (event : Dict) : Bool :=
  match (pyGet event "ResourceProperties").getD .none with
  | .none => true
  | .dict _ => true
  | _ => false

/-- Closed oracle environment: every external call fails, both parsers fail,
`cfnresponse` is unavailable. -/
def env0 : Env :=
  ⟨fun _ _ => .error "no-s3", fun _ => Option.none, fun _ => Option.none,
   fun _ => .error "denied", false⟩

/-- Environment in which the S3 fetch yields `"payload"` and the JSON parser
succeeds on it. -/
def envJ : Env :=
  ⟨fun _ _ => .ok "payload",
   fun s => if s = "payload" then some (.int 7) else Option.none,
   fun _ => Option.none, fun _ => .error "denied", false⟩

/-- Environment in which copying the key `p/a.json` fails and every other copy
succeeds. -/
def env3 : Env :=
  ⟨fun _ _ => .error "no-s3", fun _ => Option.none, fun _ => Option.none,
   fun p => if p.sourceKey = "p/a.json" then .error "AccessDenied" else .ok (), false⟩

/-- Environment in which every copy fails with `"boom"`. -/
def env4 : Env :=
  ⟨fun _ _ => .error "no-s3", fun _ => Option.none, fun _ => Option.none,
   fun _ => .error "boom", false⟩

/-- A fixed execution context. -/
def ctx0 : Ctx := ⟨"log-stream-2020"⟩

/-- A one-object heap used to witness the aliasing claim. -/
def heap1 : Heap := fun n =>
  if n = 0 then some [("ServiceToken", PyVal.str "arn:token"), ("Default", PyVal.str "v")]
  else Option.none

/-! ## Helper lemmas -/

theorem containsKey_eq_isSome (d : Dict) (k : String) :
    containsKey d k = (pyGet d k).isSome := by
  induction d with
  | nil => rfl
  | cons p t ih =>
    cases h : (p.1 == k) with
    | true => simp [containsKey, pyGet, h]
    | false => simpa [containsKey, pyGet, h] using ih

theorem containsKey_of_pyGet {d : Dict} {k : String} {v : PyVal}
    (h : pyGet d k = some v) : containsKey d k = true := by
  rw [containsKey_eq_isSome, h]
  rfl

theorem pyGet_map_set_ne (t : Dict) (k k' : String) (v : PyVal) (h : k' ≠ k) :
    pyGet (t.map (fun p => if p.1 == k then (k, v) else p)) k' = pyGet t k' := by
  induction t with
  | nil => rfl
  | cons p t ih =>
    have hkk : (k == k') = false := beq_eq_false_iff_ne.mpr (fun hk => h hk.symm)
    cases hpk : (p.1 == k) with
    | true =>
      have hp1 : (p.1 == k') = false := by
        rw [beq_iff_eq] at hpk
        rw [hpk]
        exact hkk
      simpa [pyGet, hpk, hkk, hp1] using ih
    | false =>
      cases hpk' : (p.1 == k') with
      | true => simp [pyGet, hpk, hpk']
      | false => simpa [pyGet, hpk, hpk'] using ih

theorem pyGet_append_single_ne (t : Dict) (k k' : String) (v : PyVal) (h : k' ≠ k) :
    pyGet (t ++ [(k, v)]) k' = pyGet t k' := by
  induction t with
  | nil =>
    have hkk : (k == k') = false := beq_eq_false_iff_ne.mpr (fun hk => h hk.symm)
    simp [pyGet, hkk]
  | cons p t ih =>
    cases hpk' : (p.1 == k') with
    | true => simp [pyGet, hpk']
    | false => simpa [pyGet, hpk'] using ih

theorem pyGet_dictSet_ne (d : Dict) (k k' : String) (v : PyVal) (h : k' ≠ k) :
    pyGet (dictSet d k v) k' = pyGet d k' := by
  unfold dictSet
  split
  · exact pyGet_map_set_ne d k k' v h
  · exact pyGet_append_single_ne d k k' v h

theorem applyOverride_ok_other {props : Dict} {arnKey sectionKey : String} {d d1 : Dict}
    (h : applyOverride props arnKey sectionKey d = .ok d1) (k : String)
    (hk : k ≠ sectionKey) : pyGet d1 k = pyGet d k := by
  unfold applyOverride at h
  split at h
  · split at h
    · split at h
      · cases h
        exact pyGet_dictSet_ne _ _ _ _ hk
      · cases h
      · cases h
        rfl
    · cases h
      rfl
  · cases h
    rfl

theorem applyOverride_skip_of_missing (props : Dict) (arnKey sectionKey : String)
    (d : Dict) (h : pyGet d sectionKey = Option.none) :
    applyOverride props arnKey sectionKey d = .ok d := by
  unfold applyOverride
  split
  · split
    · simp [h]
    · rfl
  · rfl

theorem applyOverride_skip_of_blank (props : Dict) (arnKey sectionKey : String)
    (d : Dict) (s : String) (h : (pyGet props arnKey).getD .none = .str s)
    (hs : pyStrip s = "") :
    applyOverride props arnKey sectionKey d = .ok d := by
  unfold applyOverride
  rw [h]
  simp [hs]

theorem applyOverride_skip_of_nonstr (props : Dict) (arnKey sectionKey : String)
    (d : Dict) (h : ((pyGet props arnKey).getD .none).isStr = false) :
    applyOverride props arnKey sectionKey d = .ok d := by
  unfold applyOverride
  rcases hv : (pyGet props arnKey).getD .none with _ | b | n | fk | dk | s | xs | es <;>
    first
      | rfl
      | (rw [hv] at h; simp [PyVal.isStr] at h)

theorem uc_cfn_block_effects {env : Env} {event : Dict} {st : String} {data : PyVal}
    {reason : Option String} {effs : List Effect}
    (h : uc_cfn_block env event st data reason = .ok effs) :
    ∀ eff ∈ effs, isCfnEffect eff = true := by
  unfold uc_cfn_block at h
  repeat' split at h
  all_goals (cases h <;> simp [isCfnEffect])

theorem uc_delete_effects {env : Env} {event : Dict} {dres : Except String (Option PyVal)}
    {deffs : List Effect} (h : uc_delete env event = (dres, deffs)) :
    ∀ eff ∈ deffs, isCfnEffect eff = true := by
  unfold uc_delete at h
  rcases hc : uc_cfn_block env event "SUCCESS" uc_delete_response Option.none
    with e | cfnEffs <;> rw [hc] at h <;> cases h
  · simp
  · exact uc_cfn_block_effects hc

theorem allCfn_append_cfnSend {effs : List Effect}
    (h : ∀ eff ∈ effs, isCfnEffect eff = true)
    (a : String) (b : PyVal) (c : Option String) (d : Option String) :
    ∀ eff ∈ effs ++ [Effect.cfnSend a b c d], isCfnEffect eff = true := by
  intro eff he
  rcases List.mem_append.mp he with h1 | h1
  · exact h eff h1
  · rw [List.mem_singleton.mp h1]
    rfl

/-! ## Claim theorems -/

/-- C2 (code_bug evidence): in the lambda upsert, a `Configuration` field in
the (converted) content overrides the partition key written from the logical
name — the stored partition key is `"Evil"`, not `"Default"` — while the
json_to_dynamodb converter reserves the partition key and skips the content
field, as the claim demands. -/
theorem C2_partition_key_taken_from_content :
    update_configuration "Default"
        (.dict [("Configuration", .str "Evil"), ("foo", .int 1)])
      = .ok (.putItem [("Configuration", .str "Evil"), ("foo", .int 1)]) ∧
    pyGet [("Configuration", PyVal.str "Evil"), ("foo", PyVal.int 1)] "Configuration"
      = some (.str "Evil") ∧
    jtd_build_item "Default" [("Configuration", .str "Evil"), ("foo", .int 1)]
      = [("Configuration", .dict [("S", .str "Default")]),
         ("foo", .dict [("N", .str "1")])] :=
  ⟨rfl, rfl, rfl⟩

/-- C5 (counterexample): the lambda's Storage Type Adapter
(`convert_floats_to_decimal`) silently coerces NaN and Infinity to decimal
values instead of failing with a rejection error. -/
theorem C5_counterexample :
    convert_floats_to_decimal (.float .nan) = .decimal .nan ∧
    convert_floats_to_decimal (.float .inf) = .decimal .inf :=
  ⟨rfl, rfl⟩

/-- C5 (amended): every non-finite float is rejected with an explicit error by
load_config's `convert_to_dynamodb_format`, while the lambda's
`convert_floats_to_decimal` converts it to a decimal NaN/Infinity without any
check. -/
theorem C5_nonfinite_handling (k : FloatKind)
    (h : k = .nan ∨ k = .inf ∨ k = .negInf) :
    convert_to_dynamodb_format (.float k)
      = .error "ValueError: NaN/Infinity are not supported for DynamoDB Number attributes" ∧
    convert_floats_to_decimal (.float k) = .decimal k := by
  rcases h with h | h | h <;> subst h <;> exact ⟨rfl, rfl⟩

/-- Witness for C5 at the concrete input NaN. -/
theorem C5_nonfinite_handling_witness :
    convert_to_dynamodb_format (.float .nan)
      = .error "ValueError: NaN/Infinity are not supported for DynamoDB Number attributes" ∧
    convert_floats_to_decimal (.float .nan) = .decimal .nan :=
  C5_nonfinite_handling .nan (Or.inl rfl)

/-- C10: `properties = dict(resource_properties)` is a shallow copy, so
`properties.pop('ServiceToken', None)` mutates only the fresh object: the
caller's dict at its original address is unchanged (as is every other
address), and the copy equals the original minus `ServiceToken`. -/
theorem C10_event_not_mutated (heap : Heap) (a fresh : Nat) (d : Dict)
    (ha : heap a = some d) (hne : fresh ≠ a) :
    extract_properties heap (some a) fresh a = some d ∧
    extract_properties heap (some a) fresh fresh
      = some (dictPop d "ServiceToken") ∧
    ∀ b, b ≠ fresh → extract_properties heap (some a) fresh b = heap b := by
  refine ⟨?_, ?_, ?_⟩
  · have : a ≠ fresh := fun h => hne h.symm
    simp [extract_properties, this, ha]
  · simp [extract_properties, ha]
  · intro b hb
    simp [extract_properties, hb]

/-- Witness for C10 on a one-object heap. -/
theorem C10_event_not_mutated_witness :
    extract_properties heap1 (some 0) 1 0
      = some [("ServiceToken", PyVal.str "arn:token"), ("Default", PyVal.str "v")] ∧
    extract_properties heap1 (some 0) 1 1 = some [("Default", PyVal.str "v")] ∧
    extract_properties heap1 (some 0) 1 2 = Option.none := by
  have h := C10_event_not_mutated heap1 0 1
    [("ServiceToken", PyVal.str "arn:token"), ("Default", PyVal.str "v")] rfl (by decide)
  exact ⟨h.1, h.2.1, h.2.2 2 (by decide)⟩

/-- C1 (counterexample): in direct-invocation mode (no orchestrator signal in
the event) the configuration handler returns no result at all for an
unrecognized `RequestType`, and lets a dispatch exception escape instead of
returning a structured error value. -/
theorem C1_counterexample :
    uc_handler env0 [("RequestType", PyVal.str "Configure")] ctx0
      = (.returnedNone, []) ∧
    uc_handler env0
      [("RequestType", PyVal.str "Create"),
       ("ResourceProperties", PyVal.dict [("Default", PyVal.str "s3://b/k")])] ctx0
      = (.raised "no-s3", []) :=
  ⟨rfl, rfl⟩

/-- C1 (amended): in direct-invocation mode the copy handler always returns a
structured `{statusCode, body}` result object (success or error — no
exception escapes); the configuration handler, by contrast, returns `None` for
an unrecognized `RequestType` and re-raises any dispatch exception to the
caller. -/
theorem C1_direct_mode_results (env : Env) (event : Dict) (ctx : Ctx) :
    (containsKey event "ResponseURL" = false →
      ∃ code body, (copy_handler env event ctx).1
        = .returned (.dict [("statusCode", .int code), ("body", body)])) ∧
    (containsKey event "StackId" = false → rpWellFormed event = true →
      ∀ rt, pyGet event "RequestType" = some (.str rt) →
        rt ≠ "Create" → rt ≠ "Update" → rt ≠ "Delete" →
        (uc_handler env event ctx).1 = .returnedNone) ∧
    (containsKey event "StackId" = false →
      ∀ e effs, uc_body env event = (.error e, effs) →
        uc_handler env event ctx = (.raised e, effs)) := by
  refine ⟨?_, ?_, ?_⟩
  · intro hd
    unfold copy_handler copy_fail400 copy_except buildCopyResponse
    simp only [hd]
    repeat' split
    all_goals simp_all
  · intro hs hrp rt hrt h1 h2 h3
    have e1 : (rt == "Create") = false := beq_eq_false_iff_ne.mpr h1
    have e2 : (rt == "Update") = false := beq_eq_false_iff_ne.mpr h2
    have e3 : (rt == "Delete") = false := beq_eq_false_iff_ne.mpr h3
    unfold rpWellFormed at hrp
    unfold uc_handler uc_body uc_props
    rcases hr : (pyGet event "ResourceProperties").getD .none with _ | b | n | fk | dk | s | xs | d <;>
      simp only [hr] at hrp <;>
      simp [hrt, pyEqStr, e1, e2, e3] at hrp ⊢
  · intro hs e effs hb
    unfold uc_handler
    rw [hb]
    simp [hs]

/-- Witness for C1 at concrete events: the copy handler yields a structured
result for a RequestType-less direct event; the configuration handler yields
`None` for an unknown request type. -/
theorem C1_direct_mode_results_witness :
    (∃ code body, (copy_handler env0 [("RequestId", PyVal.str "r-1")] ctx0).1
      = .returned (.dict [("statusCode", .int code), ("body", body)])) ∧
    (uc_handler env0 [("RequestType", PyVal.str "Rotate")] ctx0).1 = .returnedNone ∧
    uc_handler env0
      [("RequestType", PyVal.str "Update"),
       ("ResourceProperties", PyVal.dict [("Schema", PyVal.str "s3://b/k")])] ctx0
      = (.raised "no-s3", []) := by
  refine ⟨?_, ?_, ?_⟩
  · exact (C1_direct_mode_results env0 [("RequestId", PyVal.str "r-1")] ctx0).1 rfl
  · exact (C1_direct_mode_results env0 [("RequestType", PyVal.str "Rotate")] ctx0).2.1
      rfl rfl "Rotate" rfl (by decide) (by decide) (by decide)
  · exact (C1_direct_mode_results env0
      [("RequestType", PyVal.str "Update"),
       ("ResourceProperties", PyVal.dict [("Schema", PyVal.str "s3://b/k")])] ctx0).2.2
      rfl "no-s3" [] rfl

/-- C6: overrides are applied only for a non-blank string override property
targeting an existing section; a missing section is silently skipped (never
created, content unchanged), a blank or non-string override applies nothing,
an untargeted section is stored unchanged, and the spec's example rewrites
only `classification.model`. -/
theorem C6_override_policy :
    (∀ (props : Dict) (arnKey sectionKey : String) (d : Dict),
      pyGet d sectionKey = Option.none →
      applyOverride props arnKey sectionKey d = .ok d) ∧
    (∀ (props : Dict) (arnKey sectionKey : String) (d : Dict) (s : String),
      (pyGet props arnKey).getD .none = .str s → pyStrip s = "" →
      applyOverride props arnKey sectionKey d = .ok d) ∧
    (∀ (props : Dict) (arnKey sectionKey : String) (d : Dict),
      ((pyGet props arnKey).getD .none).isStr = false →
      applyOverride props arnKey sectionKey d = .ok d) ∧
    (∀ (props d : Dict) (res : PyVal),
      pyGet props "CustomExtractionModelARN" = Option.none →
      applyModelOverrides props (.dict d) = .ok res →
      ∃ d2, res = .dict d2 ∧ pyGet d2 "extraction" = pyGet d "extraction") ∧
    (applyModelOverrides [("CustomClassificationModelARN", PyVal.str "X")]
        (.dict [("classification", .dict [("model", .str "A")]),
                ("extraction", .dict [("model", .str "B")])])
      = .ok (.dict [("classification", .dict [("model", .str "X")]),
                    ("extraction", .dict [("model", .str "B")])])) := by
  refine ⟨applyOverride_skip_of_missing, applyOverride_skip_of_blank,
    applyOverride_skip_of_nonstr, ?_, rfl⟩
  intro props d res hnone hok
  simp only [applyModelOverrides] at hok
  rcases h1 : applyOverride props "CustomClassificationModelARN" "classification" d
    with e | d1
  · rw [h1] at hok
    cases hok
  · rw [h1] at hok
    have h2 : applyOverride props "CustomExtractionModelARN" "extraction" d1 = .ok d1 :=
      applyOverride_skip_of_nonstr _ _ _ _ (by rw [hnone]; rfl)
    simp [h2] at hok
    exact ⟨d1, hok.symm, applyOverride_ok_other h1 "extraction" (by decide)⟩

/-- Witness for C6: a missing `classification` section is skipped and not
created; an all-whitespace override applies nothing. -/
theorem C6_override_policy_witness :
    applyOverride [] "CustomClassificationModelARN" "classification"
        [("extraction", PyVal.dict [("model", PyVal.str "B")])]
      = .ok [("extraction", PyVal.dict [("model", PyVal.str "B")])] ∧
    applyOverride [("CustomClassificationModelARN", PyVal.str "  ")]
        "CustomClassificationModelARN" "classification"
        [("classification", PyVal.dict [("model", PyVal.str "A")])]
      = .ok [("classification", PyVal.dict [("model", PyVal.str "A")])] := by
  constructor
  · exact C6_override_policy.1 [] _ _ _ rfl
  · exact C6_override_policy.2.1 _ _ _ _ "  " rfl rfl

/-- C8: the Content Resolver returns any non-reference value unchanged (a
non-string, or a string without the `s3://` scheme), and on a fetched
reference applies exactly the JSON → YAML → raw-text fallback order. -/
theorem C8_resolver_ordered_fallback (env : Env) :
    (∀ s, pyStartsWith s "s3://" = false →
      resolve_content env (.str s) = .ok (.str s)) ∧
    (∀ v, v.isStr = false → resolve_content env v = .ok v) ∧
    (∀ uri bucket key content,
      pyStartsWith uri "s3://" = true →
      splitBucketKey (pyDrop uri 5) = some (bucket, key) →
      env.s3fetch bucket key = .ok content →
      (∀ v, env.jsonParse content = some v →
        resolve_content env (.str uri) = .ok v) ∧
      (∀ v, env.jsonParse content = Option.none → env.yamlParse content = some v →
        resolve_content env (.str uri) = .ok v) ∧
      (env.jsonParse content = Option.none → env.yamlParse content = Option.none →
        resolve_content env (.str uri) = .ok (.str content))) := by
  refine ⟨?_, ?_, ?_⟩
  · intro s h
    simp [resolve_content, h]
  · intro v hv
    cases v <;> first
      | rfl
      | simp [PyVal.isStr] at hv
  · intro uri bucket key content hsw hsplit hfetch
    refine ⟨?_, ?_, ?_⟩
    · intro v hj
      simp [resolve_content, fetch_content_from_s3, hsw, hsplit, hfetch, hj]
    · intro v hj hy
      simp [resolve_content, fetch_content_from_s3, hsw, hsplit, hfetch, hj, hy]
    · intro hj hy
      simp [resolve_content, fetch_content_from_s3, hsw, hsplit, hfetch, hj, hy]

/-- Witness for C8: a non-reference string and value pass through unchanged;
with the JSON parser succeeding on the fetched payload the parsed value is
returned. -/
theorem C8_resolver_ordered_fallback_witness :
    resolve_content envJ (.str "config.yaml") = .ok (.str "config.yaml") ∧
    resolve_content envJ (.int 5) = .ok (.int 5) ∧
    resolve_content envJ (.str "s3://bucket/key.json") = .ok (.int 7) := by
  refine ⟨?_, ?_, ?_⟩
  · exact (C8_resolver_ordered_fallback envJ).1 "config.yaml" rfl
  · exact (C8_resolver_ordered_fallback envJ).2.1 (.int 5) rfl
  · exact ((C8_resolver_ordered_fallback envJ).2.2 "s3://bucket/key.json" "bucket"
      "key.json" "payload" rfl rfl rfl).1 (.int 7) rfl

/-- C4 (counterexample): a missing `fileList` is not valid input — the copy
handler reports a 400 input error instead of a zero-copy success. -/
theorem C4_counterexample :
    copy_handler env0
      [("RequestType", PyVal.str "Create"),
       ("ResourceProperties", PyVal.dict
         [("SourceBucket", PyVal.str "s"), ("SourcePrefix", PyVal.str "p"),
          ("TargetBucket", PyVal.str "t")])] ctx0
      = (.returned (.dict
          [("statusCode", .int 400),
           ("body", .dict
             [("error", .str "Missing required ResourceProperties: FileList")])]), []) :=
  rfl

/-- C4 (amended): an empty `fileList` is valid input that yields zero copy
attempts (no effects at all) and a success outcome with `CopiedFiles = 0` and
no failures; a missing `fileList` is an input error (`FileList` is a required
property). -/
theorem C4_filelist_policy :
    (∀ (env : Env) (event : Dict) (ctx : Ctx) (props : Dict) (sp tp : String),
      pyGet event "RequestType" = some (.str "Create") →
      containsKey event "ResponseURL" = false →
      pyGet event "ResourceProperties" = some (.dict props) →
      containsKey props "SourceBucket" = true →
      pyGet props "SourcePrefix" = some (.str sp) →
      containsKey props "TargetBucket" = true →
      pyGet props "FileList" = some (.list []) →
      (pyGet props "TargetPrefix").getD (.str "") = .str tp →
      copy_handler env event ctx
        = (.returned (.dict
            [("statusCode", .int 200),
             ("body", .dict
               [("CopiedFiles", .int 0), ("FailedFiles", .int 0),
                ("TotalFiles", .int 0),
                ("message", .str "Successfully copied 0/0 configuration files")])]), [])) ∧
    (∀ (env : Env) (event : Dict) (ctx : Ctx) (props : Dict),
      pyGet event "RequestType" = some (.str "Create") →
      containsKey event "ResponseURL" = false →
      pyGet event "ResourceProperties" = some (.dict props) →
      containsKey props "SourceBucket" = true →
      containsKey props "SourcePrefix" = true →
      containsKey props "TargetBucket" = true →
      containsKey props "FileList" = false →
      copy_handler env event ctx
        = (.returned (.dict
            [("statusCode", .int 400),
             ("body", .dict
               [("error", .str "Missing required ResourceProperties: FileList")])]), [])) := by
  constructor
  · intro env event ctx props sp tp hrt hd hrp hsb hsp htb hfl htp
    have hspc : containsKey props "SourcePrefix" = true := containsKey_of_pyGet hsp
    have hflc : containsKey props "FileList" = true := containsKey_of_pyGet hfl
    unfold copy_handler
    simp [hrt, hd, hrp, hsb, hsp, htb, hfl, htp, hspc, hflc, requiredKeys, truthy,
      extractPfx, copyLoop, buildCopyResponse, totalFiles, copy_fail400, pyEqStr]
    rfl
  · intro env event ctx props hrt hd hrp hsb hsp htb hfl
    unfold copy_handler
    simp [hrt, hd, hrp, hsb, hsp, htb, hfl, requiredKeys, truthy, copy_fail400]
    rfl

/-- Witness for C4 at concrete events: empty list succeeds with zero copies;
missing list is a 400 error. -/
theorem C4_filelist_policy_witness :
    copy_handler env0
      [("RequestType", PyVal.str "Create"),
       ("ResourceProperties", PyVal.dict
         [("SourceBucket", PyVal.str "src-b"), ("SourcePrefix", PyVal.str "pre"),
          ("TargetBucket", PyVal.str "tgt-b"), ("FileList", PyVal.list [])])] ctx0
      = (.returned (.dict
          [("statusCode", .int 200),
           ("body", .dict
             [("CopiedFiles", .int 0), ("FailedFiles", .int 0), ("TotalFiles", .int 0),
              ("message", .str "Successfully copied 0/0 configuration files")])]), []) ∧
    copy_handler env0
      [("RequestType", PyVal.str "Create"),
       ("ResourceProperties", PyVal.dict
         [("SourceBucket", PyVal.str "src-b"), ("SourcePrefix", PyVal.str "pre"),
          ("TargetBucket", PyVal.str "tgt-b")])] ctx0
      = (.returned (.dict
          [("statusCode", .int 400),
           ("body", .dict
             [("error", .str "Missing required ResourceProperties: FileList")])]), []) := by
  constructor
  · exact C4_filelist_policy.1 env0 _ ctx0 _ "pre" "" rfl rfl rfl rfl rfl rfl rfl rfl
  · exact C4_filelist_policy.2 env0 _ ctx0 _ rfl rfl rfl rfl rfl rfl rfl

/-- C7 (counterexample): the copy handler validates required properties before
the `Delete` branch, so a Delete event without them is reported as a 400
failure — not success (no deletion happens either way). -/
theorem C7_counterexample :
    copy_handler env0 [("RequestType", PyVal.str "Delete")] ctx0
      = (.returned (.dict
          [("statusCode", .int 400),
           ("body", .dict
             [("error", .str
               "Missing required ResourceProperties: SourceBucket, SourcePrefix, TargetBucket, FileList")])]),
         []) :=
  rfl

/-- C7 (amended): on every `Delete` event both handlers perform no store
deletion, no write and no object copy or removal (every emitted effect is a
CloudFormation callback); the configuration handler reports success whenever
its properties are well formed (in both invocation modes), and the copy
handler reports success in both modes provided its required-property
validation passes — a Delete event failing validation is reported as a
failure, still without deleting anything. -/
theorem C7_delete_no_op :
    (∀ (env : Env) (event : Dict) (ctx : Ctx),
      pyGet event "RequestType" = some (.str "Delete") →
      (∀ eff ∈ (uc_handler env event ctx).2, isCfnEffect eff = true) ∧
      (∀ eff ∈ (copy_handler env event ctx).2, isCfnEffect eff = true)) ∧
    (∀ (env : Env) (event : Dict) (ctx : Ctx),
      pyGet event "RequestType" = some (.str "Delete") →
      rpWellFormed event = true →
      (containsKey event "StackId" = false ∨ env.cfnAvailable = false ∨
        (∃ lid, pyGet event "LogicalResourceId" = some lid)) →
      (uc_handler env event ctx).1
        = .returned (.dict [("Message", .str "Success (delete = no-op)"),
                            ("Status", .str "SUCCESS")])) ∧
    (∀ (env : Env) (event : Dict) (ctx : Ctx) (props : Dict) (sp tp : String)
        (fl : List PyVal),
      pyGet event "RequestType" = some (.str "Delete") →
      pyGet event "ResourceProperties" = some (.dict props) →
      containsKey props "SourceBucket" = true →
      pyGet props "SourcePrefix" = some (.str sp) →
      containsKey props "TargetBucket" = true →
      pyGet props "FileList" = some (.list fl) →
      (pyGet props "TargetPrefix").getD (.str "") = .str tp →
      (containsKey event "ResponseURL" = false →
        copy_handler env event ctx
          = (.returned (.dict [("statusCode", .int 200),
              ("body", .dict
                [("message", .str "Delete completed - configuration files retained")])]),
             [])) ∧
      (∀ url, pyGet event "ResponseURL" = some (.str url) → url ≠ "" →
        copy_handler env event ctx
          = (.returnedNone,
             [.cfnPut url (cfnBody event ctx "SUCCESS"
               (.dict [("message", .str "Delete completed - configuration files retained")])
               Option.none Option.none)]))) := by
  refine ⟨?_, ?_, ?_⟩
  · intro env event ctx hrt
    constructor
    · have hb : ∀ res effs, uc_body env event = (res, effs) →
          ∀ eff ∈ effs, isCfnEffect eff = true := by
        intro res effs hbe
        unfold uc_body at hbe
        simp only [hrt, Option.getD_some] at hbe
        rcases hp : uc_props event with e | props0 <;> rw [hp] at hbe
        · have h2 : ((Except.error e : Except String (Option PyVal)),
              ([] : List Effect)) = (res, effs) := hbe
          cases h2
          simp
        · exact uc_delete_effects (hbe : uc_delete env event = (res, effs))
      rcases hb0 : uc_body env event with ⟨res, effs⟩
      have heffs := hb res effs hb0
      rcases res with e | ov
      · simp only [uc_handler, hb0]
        repeat' split
        all_goals first
          | exact heffs
          | exact allCfn_append_cfnSend heffs _ _ _ _
      · rcases ov with _ | r <;> simp only [uc_handler, hb0] <;> exact heffs
    · unfold copy_handler copy_fail400 copy_except send_cfn_response
      simp only [hrt, Option.getD_some]
      have g1 : pyEqStr (PyVal.str "Delete") "Create" = false := rfl
      have g2 : pyEqStr (PyVal.str "Delete") "Update" = false := rfl
      simp only [g1, g2, Bool.false_or]
      repeat' split
      all_goals simp_all [isCfnEffect, truthy]
  · intro env event ctx hrt hrp hmode
    unfold rpWellFormed at hrp
    unfold uc_handler uc_body uc_props uc_delete uc_cfn_block
    rcases hr : (pyGet event "ResourceProperties").getD .none with _ | b | n | fk | dk | s | xs | d <;>
      simp only [hr] at hrp <;>
      first
        | simp at hrp
        | (simp only [hrt, Option.getD_some]
           rcases hmode with hs | hca | ⟨lid, hlid⟩
           · simp [hs, pyEqStr, uc_delete_response]
           · cases hsk : containsKey event "StackId" <;>
               simp [hsk, hca, pyEqStr, uc_delete_response]
           · cases hsk : containsKey event "StackId"
             · simp [hsk, pyEqStr, uc_delete_response]
             · cases hca : env.cfnAvailable
               · simp [hsk, hca, pyEqStr, uc_delete_response]
               · obtain ⟨sid, hsid⟩ : ∃ sid, pyGet event "StackId" = some sid := by
                   have h1 := containsKey_eq_isSome event "StackId"
                   rw [hsk] at h1
                   exact Option.isSome_iff_exists.mp h1.symm
                 simp [hsk, hca, hsid, hlid, pyEqStr, uc_delete_response])
  · intro env event ctx props sp tp fl hrt hrp hsb hsp htb hfl htp
    have hspc : containsKey props "SourcePrefix" = true := containsKey_of_pyGet hsp
    have hflc : containsKey props "FileList" = true := containsKey_of_pyGet hfl
    constructor
    · intro hd
      unfold copy_handler
      simp [hrt, hd, hrp, hsb, hsp, htb, hfl, htp, hspc, hflc, requiredKeys, truthy,
        extractPfx, pyEqStr]
    · intro url hurl hu
      have hd : containsKey event "ResponseURL" = true := containsKey_of_pyGet hurl
      have hub : (url == "") = false := beq_eq_false_iff_ne.mpr hu
      unfold copy_handler send_cfn_response
      simp [hrt, hd, hrp, hsb, hsp, htb, hfl, htp, hspc, hflc, requiredKeys, truthy,
        extractPfx, pyEqStr, hurl, hub, pyStrOf]

/-- Witness for C7 at concrete Delete events: the configuration handler emits
no store effect and reports success; the copy handler (with valid properties,
direct mode) copies/removes nothing and reports success. -/
theorem C7_delete_no_op_witness :
    (∀ eff ∈ (uc_handler env0 [("RequestType", PyVal.str "Delete")] ctx0).2,
        isCfnEffect eff = true) ∧
    (uc_handler env0 [("RequestType", PyVal.str "Delete")] ctx0).1
      = .returned (.dict [("Message", .str "Success (delete = no-op)"),
                          ("Status", .str "SUCCESS")]) ∧
    copy_handler env0
      [("RequestType", PyVal.str "Delete"),
       ("ResourceProperties", PyVal.dict
         [("SourceBucket", PyVal.str "s"), ("SourcePrefix", PyVal.str "p"),
          ("TargetBucket", PyVal.str "t"), ("FileList", PyVal.list [])])] ctx0
      = (.returned (.dict [("statusCode", .int 200),
          ("body", .dict
            [("message", .str "Delete completed - configuration files retained")])]),
         []) := by
  refine ⟨?_, ?_, ?_⟩
  · exact (C7_delete_no_op.1 env0 [("RequestType", PyVal.str "Delete")] ctx0 rfl).1
  · exact C7_delete_no_op.2.1 env0 [("RequestType", PyVal.str "Delete")] ctx0 rfl rfl
      (Or.inl rfl)
  · exact (C7_delete_no_op.2.2 env0
      [("RequestType", PyVal.str "Delete"),
       ("ResourceProperties", PyVal.dict
         [("SourceBucket", PyVal.str "s"), ("SourcePrefix", PyVal.str "p"),
          ("TargetBucket", PyVal.str "t"), ("FileList", PyVal.list [])])] ctx0
      [("SourceBucket", PyVal.str "s"), ("SourcePrefix", PyVal.str "p"),
       ("TargetBucket", PyVal.str "t"), ("FileList", PyVal.list [])]
      "p" "" [] rfl rfl rfl rfl rfl rfl rfl).1 rfl

theorem headIsSlash_dropWhile (l : List Char) :
    headIsSlash (l.dropWhile (fun c => c == '/')) = false := by
  induction l with
  | nil => rfl
  | cons a t ih =>
    cases h : (a == '/') with
    | true => simpa [List.dropWhile, h] using ih
    | false => simp [List.dropWhile, h, headIsSlash]

theorem lastIsSlash_append_singleton (xs : List Char) (a : Char) :
    lastIsSlash (xs ++ [a]) = (a == '/') := by
  induction xs with
  | nil => rfl
  | cons b t ih =>
    cases t with
    | nil => rfl
    | cons c t' => simpa [lastIsSlash] using ih

theorem lastIsSlash_reverse (l : List Char) :
    lastIsSlash l.reverse = headIsSlash l := by
  cases l with
  | nil => rfl
  | cons a t => simp [List.reverse_cons, lastIsSlash_append_singleton, headIsSlash]

theorem listHasDS_cons_slash (l : List Char) :
    listHasDS ('/' :: l) = (headIsSlash l || listHasDS l) := by
  cases l with
  | nil => rfl
  | cons b t => simp [listHasDS, headIsSlash]

theorem listHasDS_append (xs ys : List Char) :
    listHasDS (xs ++ ys)
      = (listHasDS xs || listHasDS ys || (lastIsSlash xs && headIsSlash ys)) := by
  induction xs with
  | nil => simp [listHasDS, lastIsSlash]
  | cons a t ih =>
    cases t with
    | nil =>
      cases ys with
      | nil => simp [listHasDS, lastIsSlash, headIsSlash]
      | cons b u => simp [listHasDS, lastIsSlash, headIsSlash, Bool.or_comm]
    | cons b t' =>
      have ih' : listHasDS (b :: t'.append ys)
          = (listHasDS (b :: t') || listHasDS ys
              || (lastIsSlash (b :: t') && headIsSlash ys)) := ih
      simp only [List.cons_append, listHasDS, lastIsSlash, ih', Bool.or_assoc]

theorem lastIsSlash_rstrip (s : String) :
    lastIsSlash (rstripSlashes s).data = false := by
  show lastIsSlash ((s.data.reverse.dropWhile (fun c => c == '/')).reverse) = false
  rw [lastIsSlash_reverse]
  exact headIsSlash_dropWhile _

theorem hasDoubleSlash_join (p r : String)
    (hpl : lastIsSlash p.data = false) (hrh : headIsSlash r.data = false)
    (hp : hasDoubleSlash p = false) (hr : hasDoubleSlash r = false) :
    hasDoubleSlash (p ++ "/" ++ r) = false := by
  unfold hasDoubleSlash at *
  have hdata : (p ++ "/" ++ r).data = p.data ++ ('/' :: r.data) := by
    rw [String.data_append, String.data_append]
    rw [List.append_assoc]
    rfl
  rw [hdata, listHasDS_append, listHasDS_cons_slash]
  simp [hp, hpl, hrh, hr]

/-- C9: normalized file-list entries have their leading slashes stripped, keys
are joined with a single-slash separator that omits an empty prefix entirely
and introduces no doubled slash (given none was already inside either part),
and the copy loop builds its source/target keys exactly this way. -/
theorem C9_key_construction (e sp : String) (hne : pyStrip e ≠ "") :
    headIsSlash (entryNorm (pyStrip e)).data = false ∧
    buildKey "" (entryNorm (pyStrip e)) = entryNorm (pyStrip e) ∧
    (hasDoubleSlash (pfxNorm sp) = false →
      hasDoubleSlash (entryNorm (pyStrip e)) = false →
      hasDoubleSlash (buildKey (pfxNorm sp) (entryNorm (pyStrip e))) = false) ∧
    (∀ (env : Env) (sb tb : PyVal) (tpr : String) (o1 o2 o3 : Option PyVal),
      (copyLoop env sb (pfxNorm sp) tb (pfxNorm tpr) o1 o2 o3 [.str e]).1
        = [.s3CopyObject ⟨sb, buildKey (pfxNorm sp) (entryNorm (pyStrip e)), tb,
            buildKey (pfxNorm tpr) (entryNorm (pyStrip e)),
            keepIfTruthy o1, keepIfTruthy o2, keepIfTruthy o3⟩]) := by
  refine ⟨headIsSlash_dropWhile _, by simp [buildKey], ?_, ?_⟩
  · intro hp hr
    by_cases hp0 : pfxNorm sp = ""
    · simpa [buildKey, hp0] using hr
    · unfold buildKey
      rw [if_pos hp0]
      exact hasDoubleSlash_join _ _ (lastIsSlash_rstrip _) (headIsSlash_dropWhile _) hp hr
  · intro env sb tb tpr o1 o2 o3
    have hb : (pyStrip e == "") = false := beq_eq_false_iff_ne.mpr hne
    simp only [copyLoop, hb, Bool.false_eq_true, if_false]
    split <;> rfl

/-- Witness for C9: the spec's example — a leading-slash entry with non-empty
prefixes yields keys with no doubled slash. -/
theorem C9_key_construction_witness :
    headIsSlash (entryNorm (pyStrip "/a.json")).data = false ∧
    hasDoubleSlash (buildKey (pfxNorm "p/") (entryNorm (pyStrip "/a.json"))) = false ∧
    (copyLoop env0 (PyVal.str "s") (pfxNorm "p/") (PyVal.str "t") (pfxNorm "tp")
        Option.none Option.none Option.none [PyVal.str "/a.json"]).1
      = [.s3CopyObject ⟨PyVal.str "s", "p/a.json", PyVal.str "t", "tp/a.json",
          Option.none, Option.none, Option.none⟩] := by
  have h := C9_key_construction "/a.json" "p/" (by decide)
  exact ⟨h.1, h.2.2.1 rfl rfl,
    h.2.2.2 env0 (PyVal.str "s") (PyVal.str "t") "tp" Option.none Option.none Option.none⟩

/-- C3: the bulk-copy outcome policy.  Under a Create/Update event whose copy
loop attempted at least one entry: if no entry succeeded the operation is
reported as failed — direct mode returns 500 with the length-bounded aggregated
message, orchestrator mode sends FAILED with the message bounded to 1024 — and
if at least one entry succeeded it is reported as successful, surfacing the
failure count and a warning; the aggregated message carries an explicit
"... and N more errors" suffix when more than 3 entries failed, and the
reported message fields are length-bounded. -/
theorem C3_copy_outcome_policy (env : Env) (event : Dict) (ctx : Ctx) (props : Dict)
    (rt sp tpr : String) (entries : List String)
    (copied : Nat) (failed : List FailedCopy) (effsL : List Effect)
    (hrt : pyGet event "RequestType" = some (.str rt))
    (hrtv : rt = "Create" ∨ rt = "Update")
    (hrp : pyGet event "ResourceProperties" = some (.dict props))
    (hsb : containsKey props "SourceBucket" = true)
    (hsp : pyGet props "SourcePrefix" = some (.str sp))
    (htb : containsKey props "TargetBucket" = true)
    (hfl : pyGet props "FileList" = some (.list (entries.map PyVal.str)))
    (htp : (pyGet props "TargetPrefix").getD (.str "") = .str tpr)
    (hAtt : 1 ≤ totalFiles (entries.map PyVal.str))
    (hLoop : copyLoop env ((pyGet props "SourceBucket").getD .none) (pfxNorm sp)
        ((pyGet props "TargetBucket").getD .none) (pfxNorm tpr)
        (pyGet props "SSECustomerKey") (pyGet props "ServerSideEncryption")
        (pyGet props "SSEKMSKeyId") (entries.map PyVal.str)
        = (effsL, .ok (copied, failed))) :
    (containsKey event "ResponseURL" = false →
      (copied = 0 →
        copy_handler env event ctx
          = (.returned (.dict
              [("statusCode", .int 500),
               ("body", .dict
                 (("error", PyVal.str (pySlice (copyErrorMsg failed) 512)) ::
                  [("CopiedFiles", .int copied), ("FailedFiles", .int failed.length),
                   ("TotalFiles", .int (totalFiles (entries.map PyVal.str)))]))]),
             effsL)) ∧
      (0 < copied → failed ≠ [] →
        copy_handler env event ctx
          = (.returned (.dict
              [("statusCode", .int 200),
               ("body", .dict
                 [("CopiedFiles", .int copied), ("FailedFiles", .int failed.length),
                  ("TotalFiles", .int (totalFiles (entries.map PyVal.str))),
                  ("warning", .str (toString failed.length ++ " files failed to copy")),
                  ("message", .str ("Successfully copied " ++ toString copied ++ "/"
                    ++ toString (totalFiles (entries.map PyVal.str))
                    ++ " configuration files"))])]),
             effsL)) ∧
      (0 < copied → failed = [] →
        copy_handler env event ctx
          = (.returned (.dict
              [("statusCode", .int 200),
               ("body", .dict
                 [("CopiedFiles", .int copied), ("FailedFiles", .int failed.length),
                  ("TotalFiles", .int (totalFiles (entries.map PyVal.str))),
                  ("message", .str ("Successfully copied " ++ toString copied ++ "/"
                    ++ toString (totalFiles (entries.map PyVal.str))
                    ++ " configuration files"))])]),
             effsL))) ∧
    (∀ url, pyGet event "ResponseURL" = some (.str url) → url ≠ "" →
      (copied = 0 →
        copy_handler env event ctx
          = (.returnedNone,
             effsL ++ [.cfnPut url (cfnBody event ctx "FAILED"
               (.dict [("CopiedFiles", .int copied), ("FailedFiles", .int failed.length),
                       ("TotalFiles", .int (totalFiles (entries.map PyVal.str)))])
               Option.none (some (pySlice (copyErrorMsg failed) 1024)))])) ∧
      (0 < copied → failed ≠ [] →
        copy_handler env event ctx
          = (.returnedNone,
             effsL ++ [.cfnPut url (cfnBody event ctx "SUCCESS"
               (.dict [("CopiedFiles", .int copied), ("FailedFiles", .int failed.length),
                       ("TotalFiles", .int (totalFiles (entries.map PyVal.str))),
                       ("warning", .str (toString failed.length ++ " files failed to copy")),
                       ("message", .str ("Successfully copied " ++ toString copied ++ "/"
                         ++ toString (totalFiles (entries.map PyVal.str))
                         ++ " configuration files"))])
               Option.none Option.none)]))) ∧
    (3 < failed.length →
      ∃ pre, copyErrorMsg failed
        = pre ++ " ... and " ++ toString (failed.length - 3) ++ " more errors") ∧
    (pySlice (copyErrorMsg failed) 512).length ≤ 512 ∧
    (pySlice (copyErrorMsg failed) 1024).length ≤ 1024 := by
  have hspc : containsKey props "SourcePrefix" = true := containsKey_of_pyGet hsp
  have hflc : containsKey props "FileList" = true := containsKey_of_pyGet hfl
  have htruthy : truthy ((pyGet event "RequestType").getD .none) = true := by
    rw [hrt]
    rcases hrtv with h | h <;> subst h <;> rfl
  have hguard : (pyEqStr (PyVal.str rt) "Create" || pyEqStr (PyVal.str rt) "Update")
      = true := by
    rcases hrtv with h | h <;> subst h <;> rfl
  have hlen : 0 < (entries.map PyVal.str).length := by
    have h1 : totalFiles (entries.map PyVal.str) ≤ (entries.map PyVal.str).length :=
      List.countP_le_length _
    omega
  have hred : copy_handler env event ctx
      = ((buildCopyResponse event ctx (containsKey event "ResponseURL") copied failed
            (entries.map PyVal.str)).1,
         effsL ++ (buildCopyResponse event ctx (containsKey event "ResponseURL") copied
            failed (entries.map PyVal.str)).2) := by
    have htruthy' : truthy (PyVal.str rt) = true := by
      rcases hrtv with h | h <;> subst h <;> rfl
    unfold copy_handler
    simp only [hrt, Option.getD_some, hrp, hfl, hsp, htp]
    simp [htruthy', hguard, hsb, hspc, htb, hflc, requiredKeys, extractPfx, hLoop]
  refine ⟨?_, ?_, ?_, ?_, ?_⟩
  · intro hmode
    rw [hmode] at hred
    refine ⟨?_, ?_, ?_⟩
    · intro h0
      subst h0
      rw [hred]
      unfold buildCopyResponse
      rw [if_pos ⟨rfl, hlen⟩]
      simp
    · intro hpos hfne
      rw [hred]
      unfold buildCopyResponse
      rw [if_neg (by omega)]
      have hne : failed.isEmpty = false := by
        cases failed with
        | nil => exact absurd rfl hfne
        | cons a t => rfl
      simp [hne]
    · intro hpos hfe
      subst hfe
      rw [hred]
      unfold buildCopyResponse
      rw [if_neg (by omega)]
      simp
  · intro url hurl hu
    have hcfn : containsKey event "ResponseURL" = true := containsKey_of_pyGet hurl
    have hub : (url == "") = false := beq_eq_false_iff_ne.mpr hu
    rw [hcfn] at hred
    constructor
    · intro h0
      subst h0
      rw [hred]
      unfold buildCopyResponse
      rw [if_pos ⟨rfl, hlen⟩]
      simp [send_cfn_response, hurl, truthy, hub, pyStrOf]
    · intro hpos hfne
      rw [hred]
      unfold buildCopyResponse
      rw [if_neg (by omega)]
      have hne : failed.isEmpty = false := by
        cases failed with
        | nil => exact absurd rfl hfne
        | cons a t => rfl
      simp [hne, send_cfn_response, hurl, truthy, hub, pyStrOf]
  · intro h3
    unfold copyErrorMsg
    simp only [gt_iff_lt, h3, if_true]
    refine ⟨"Failed to copy any configuration files. Failed keys: " ++
      String.intercalate ", " ((failed.map (fun f => f.key)).take 5) ++
      (if (failed.map (fun f => f.key)).length > 5 then "..." else "") ++
      ". Errors: " ++
      String.intercalate "; " ((failed.take 3).map (fun f => f.key ++ ": " ++ f.error)), ?_⟩
    simp only [String.append_assoc]
  · exact le_trans (List.length_take_le _ _) (le_refl _)
  · exact le_trans (List.length_take_le _ _) (le_refl _)

/-- Witness for C3: the spec's partial-success example — `a.json` fails,
`b.json` succeeds — reports CopiedFiles 1, one failure, overall success with a
warning. -/
theorem C3_copy_outcome_policy_witness :
    copy_handler env3
      [("RequestType", PyVal.str "Update"),
       ("ResourceProperties", PyVal.dict
         [("SourceBucket", PyVal.str "s"), ("SourcePrefix", PyVal.str "p/"),
          ("TargetBucket", PyVal.str "t"), ("TargetPrefix", PyVal.str "tp"),
          ("FileList", PyVal.list [PyVal.str "a.json", PyVal.str "b.json"])])] ctx0
      = (.returned (.dict
          [("statusCode", .int 200),
           ("body", .dict
             [("CopiedFiles", .int 1), ("FailedFiles", .int 1), ("TotalFiles", .int 2),
              ("warning", .str "1 files failed to copy"),
              ("message", .str "Successfully copied 1/2 configuration files")])]),
         [.s3CopyObject ⟨PyVal.str "s", "p/a.json", PyVal.str "t", "tp/a.json",
            Option.none, Option.none, Option.none⟩,
          .s3CopyObject ⟨PyVal.str "s", "p/b.json", PyVal.str "t", "tp/b.json",
            Option.none, Option.none, Option.none⟩]) := by
  exact ((C3_copy_outcome_policy env3
      [("RequestType", PyVal.str "Update"),
       ("ResourceProperties", PyVal.dict
         [("SourceBucket", PyVal.str "s"), ("SourcePrefix", PyVal.str "p/"),
          ("TargetBucket", PyVal.str "t"), ("TargetPrefix", PyVal.str "tp"),
          ("FileList", PyVal.list [PyVal.str "a.json", PyVal.str "b.json"])])] ctx0
      [("SourceBucket", PyVal.str "s"), ("SourcePrefix", PyVal.str "p/"),
       ("TargetBucket", PyVal.str "t"), ("TargetPrefix", PyVal.str "tp"),
       ("FileList", PyVal.list [PyVal.str "a.json", PyVal.str "b.json"])]
      "Update" "p/" "tp" ["a.json", "b.json"] 1 [⟨"p/a.json", "AccessDenied"⟩]
      [.s3CopyObject ⟨PyVal.str "s", "p/a.json", PyVal.str "t", "tp/a.json",
          Option.none, Option.none, Option.none⟩,
       .s3CopyObject ⟨PyVal.str "s", "p/b.json", PyVal.str "t", "tp/b.json",
          Option.none, Option.none, Option.none⟩]
      rfl (Or.inr rfl) rfl rfl rfl rfl rfl rfl (by decide) rfl).1 rfl).2.1
    (by decide) (by simp)
